import Mathlib

/-!
# Verification of the Mock-Engine repository

A shallow embedding, in Lean 4, of the pure fragments of the repository:

* `mock_engine.py` — Flask mock server: `estimate_tokens`, `simulate_timing`,
  `select_reasoning_trace`, `grep_search`, the `/v1/completions` and
  `/v1/chat/completions` response construction, and `stream_response`;
* `mock_vllm_server.py` — async variant: `count_tokens`,
  `simulate_generation_timing`, `generate_stream`, and the usage block of
  `chat_completions`;
* `benchmark.py`, `benchmark_grep.py`, `benchmark_with_logs.py` — the
  per-query result records and the statistics aggregation.

Python strings are modelled as `List Char`; Python floats as `ℚ` (every
division the programs perform is exact in the reals up to float rounding,
and all the properties of interest are about the exact values); Python's
whitespace `str.split()` as `pyWords` below.
-/

namespace MockEngine

/-! ## Python string primitives -/

/-- Python's substring test `needle in hay` (`in` on `str`). -/
def isSubstring (needle hay : List Char) : Bool :=
  match hay with
  | [] => needle.isEmpty
  | _ :: t => needle.isPrefixOf hay || isSubstring needle t

/-- Python's `str.lower()` (restricted to the ASCII casing the sources use). -/
def lowerStr (s : List Char) : List Char :=
  s.map Char.toLower

/-- Python's no-argument `str.split()`: split on runs of whitespace,
dropping empty pieces. -/
def pyWords : List Char → List (List Char)
  | [] => []
  | c :: cs =>
    if c.isWhitespace then pyWords cs
    else (c :: cs.takeWhile (fun d => !d.isWhitespace)) ::
           pyWords (cs.dropWhile (fun d => !d.isWhitespace))
termination_by l => l.length
decreasing_by
  · simp only [List.length_cons]; omega
  · simp only [List.length_cons]
    exact Nat.lt_succ_of_le (List.dropWhile_sublist _).length_le

/-- Python's `' '.join(ws)`. -/
def joinSp : List (List Char) → List Char
  | [] => []
  | [w] => w
  | w :: ws => w ++ ' ' :: joinSp ws

/-- Python's `'\n'.join(ws)`. -/
def joinNl : List (List Char) → List Char
  | [] => []
  | [w] => w
  | w :: ws => w ++ '\n' :: joinNl ws

/-- Whitespace normalization: split on whitespace, re-join with single
spaces.  Two strings are equal up to whitespace iff their normal forms are
equal. -/
def normalizeWs (s : List Char) : List Char :=
  joinSp (pyWords s)

/-- The slices `words[i:i+(n+1)]` for `i in range(0, len(words), n+1)`
(`stream_response`'s batching; the step of a Python `range` is positive, so
the chunk size is `n + 1`). -/
def chunkList (n : ℕ) : List α → List (List α)
  | [] => []
  | a :: l => (a :: l).take (n + 1) :: chunkList n ((a :: l).drop (n + 1))
termination_by l => l.length
decreasing_by
  simp only [List.length_cons, List.length_drop]
  omega

/-! ## `mock_engine.py`: token estimate and timing (lines 16–17, 146–156)

The two rate constants are module-level in the source and are mutated by
the benchmark drivers, so the embedding takes them as parameters; the
checked-in values are recorded alongside. -/

def PREFILL_TOKENS_PER_SEC : ℚ := 1000
def DECODE_TOKENS_PER_SEC : ℚ := 50

/-- `estimate_tokens` (mock_engine.py lines 146–150), on string input:
`if not text: return 0` then `len(str(text)) // 4`. -/
def estimate_tokens (text : List Char) : ℕ :=
  if text.isEmpty then 0 else text.length / 4

/-- `simulate_timing` (mock_engine.py lines 152–156), with the two global
rate constants as explicit parameters. -/
def simulate_timing (prefill_rate decode_rate : ℚ) (prompt_tokens completion_tokens : ℕ) : ℚ :=
  prompt_tokens / prefill_rate + completion_tokens / decode_rate

/-! ## `mock_vllm_server.py`: token count and timing (lines 19–21, 104–106, 153–164) -/

def VLLM_PREFILL_TOKENS_PER_SEC : ℚ := 500
def VLLM_DECODE_TOKENS_PER_SEC : ℚ := 50
def BASE_LATENCY_MS : ℚ := 10

/-- `count_tokens` (mock_vllm_server.py lines 104–106): `len(text) // 4`. -/
def count_tokens (text : List Char) : ℕ :=
  text.length / 4

/-- Total delay slept by `simulate_generation_timing`
(mock_vllm_server.py lines 153–164): the sum of its three `asyncio.sleep`
durations. -/
def simulate_generation_timing (prefill_rate decode_rate base_ms : ℚ)
    (prompt_tokens completion_tokens : ℕ) : ℚ :=
  base_ms / 1000 + prompt_tokens / prefill_rate + completion_tokens / decode_rate

/-! ## `mock_engine.py`: reasoning traces (lines 20–115)

Each trace of the `REASONING_TRACES` dict: its regex pattern (every
pattern is an alternation of plain words, so `re.search` is "some
alternative is a substring") and its response body, verbatim. -/

def grepTracePats : List (List Char) := ["grep".data, "search".data, "find".data]

def grepTraceResponse : List Char :=
  "<think>\nTo search for this pattern, I\x27ll analyze the codebase structure:\n1. First, I\x27ll identify the relevant directories\n2. Then grep through source files for the pattern\n3. Finally, I\x27ll compile the matching results\n\nLet me execute the search...\n</think>\n\nFound 3 matches:\n- src/utils.py:45: def grep_pattern(text, pattern):\n- src/search.py:12: # Implements grep-like functionality\n- tests/test_grep.py:8: def test_grep_basic():\n".data

def debugTracePats : List (List Char) := ["debug".data, "error".data, "bug".data, "fix".data]

def debugTraceResponse : List Char :=
  "<think>\nAnalyzing the error trace:\n1. The stack trace shows a NullPointerException\n2. This occurs in the data validation layer\n3. Root cause: missing null check before dereferencing\n\nProposed fix:\n- Add defensive null checks in validate_input()\n- Add test cases for null inputs\n- Update documentation\n</think>\n\nThe bug is in src/validator.py line 67. Add this check:\n```python\nif data is None:\n    raise ValueError(\"Input cannot be None\")\n```\n".data

def refactorTracePats : List (List Char) := ["refactor".data, "improve".data, "optimize".data, "clean".data]

def refactorTraceResponse : List Char :=
  "<think>\nCode improvement analysis:\n1. Current code has duplicate logic in 3 places\n2. Can extract common functionality into a helper\n3. This will reduce complexity and improve maintainability\n\nSteps:\n- Extract common pattern into extract_common_logic()\n- Update call sites to use new helper\n- Add unit tests for the extracted function\n</think>\n\nRefactoring recommendation:\nCreate a new function in src/helpers.py:\n```python\ndef extract_common_logic(data, config):\n    # Common validation and processing\n    return processed_data\n```\n".data

def explainTracePats : List (List Char) := ["explain".data, "what".data, "how".data, "why".data]

def explainTraceResponse : List Char :=
  "<think>\nBreaking down the concept:\n1. This is a producer-consumer pattern\n2. The queue manages work items between threads\n3. Synchronization prevents race conditions\n\nKey components:\n- Producer adds items to queue\n- Consumer processes items from queue\n- Lock ensures thread safety\n</think>\n\nThis code implements a thread-safe queue where:\n- Multiple producers can add work items concurrently\n- Multiple consumers process items in parallel\n- The threading.Lock() prevents data corruption\n- The queue.Queue provides built-in synchronization\n".data

def defaultTraceResponse : List Char :=
  "<think>\nProcessing the request:\n1. Analyzing the input query\n2. Searching relevant code patterns\n3. Generating contextual response\n</think>\n\nI\x27ll help you with that. Based on the context, here\x27s what I found in the codebase.\n".data

/-- `re.search` of an alternation of literal words: some alternative is a
substring. -/
def matchesAny (alternatives : List (List Char)) (s : List Char) : Bool :=
  alternatives.any (fun kw => isSubstring kw s)

/-- `select_reasoning_trace` (mock_engine.py lines 158–169).  The dict is
iterated in insertion order — grep, debug, refactor, explain — skipping
"default", which is returned when no pattern matched or the prompt is
falsy. -/
def select_reasoning_trace (prompt : List Char) : List Char :=
  if prompt.isEmpty then defaultTraceResponse
  else
    let prompt_lower := lowerStr prompt
    if matchesAny grepTracePats prompt_lower then grepTraceResponse
    else if matchesAny debugTracePats prompt_lower then debugTraceResponse
    else if matchesAny refactorTracePats prompt_lower then refactorTraceResponse
    else if matchesAny explainTracePats prompt_lower then explainTraceResponse
    else defaultTraceResponse

/-! ## `mock_engine.py`: grep simulation (lines 118–144, 171–197) -/

def GREP_RESPONSES : List (List Char × List (List Char)) :=
  [("function".data,
    ["src/main.py:23:def main():".data,
     "src/utils.py:45:def helper_function(x, y):".data,
     "src/api.py:12:def process_request(data):".data]),
   ("class".data,
    ["src/models.py:5:class DataModel:".data,
     "src/handlers.py:18:class RequestHandler:".data,
     "src/errors.py:3:class CustomError(Exception):".data]),
   ("import".data,
    ["src/main.py:1:import os".data,
     "src/utils.py:1:import json".data,
     "src/api.py:1:from flask import Flask".data]),
   ("variable".data,
    ["src/config.py:10:API_KEY = \x27secret\x27".data,
     "src/settings.py:5:DEBUG = True".data,
     "src/constants.py:3:MAX_RETRIES = 5".data]),
   ("test".data,
    ["tests/test_main.py:15:def test_initialization():".data,
     "tests/test_api.py:8:class TestAPI(unittest.TestCase):".data,
     "tests/test_utils.py:20:def test_helper_function():".data])]

/-- The `keyword_map` local of `grep_search` (mock_engine.py lines 180–186),
in declaration order. -/
def keyword_map : List (List Char × List (List Char)) :=
  [("function".data, ["function".data, "def".data, "method".data]),
   ("class".data, ["class".data, "classes".data]),
   ("import".data, ["import".data, "imports".data, "dependencies".data]),
   ("variable".data, ["variable".data, "var".data, "declaration".data, "const".data, "constant".data]),
   ("test".data, ["test".data, "tests".data, "testing".data])]

/-- `grep_search` (mock_engine.py lines 171–197). -/
def grep_search (query : List Char) : List Char :=
  if query.isEmpty then "No query provided".data
  else
    let query_lower := lowerStr query
    let results := keyword_map.foldl
      (fun acc ckws =>
        if ckws.2.any (fun kw => isSubstring kw query_lower) then
          acc ++ ((GREP_RESPONSES.lookup ckws.1).getD [])
        else acc) []
    let results := if results.isEmpty then ["No matches found".data] else results
    joinNl results

/-! ## `mock_engine.py`: the two request handlers (lines 199–338)

Only the pure response construction is embedded: the response text, the
token estimates and the `usage` block.  Ids and timestamps are wall-clock
values, and `time.sleep` is a side effect; neither appears in any claim.
Chat message contents are modelled as strings (the structured-list content
format of lines 270–284 is flattened by the handler into a string before
any of the embedded logic runs). -/

structure Usage where
  prompt_tokens : ℕ
  completion_tokens : ℕ
  total_tokens : ℕ
deriving DecidableEq

/-- The `response_text` computed by `completions` (mock_engine.py lines
211–217): grep-style prompts get the trace plus grep results for the
prompt's last word. -/
def completions_response_text (prompt : List Char) : List Char :=
  if isSubstring "grep".data (lowerStr prompt) || isSubstring "search".data (lowerStr prompt) then
    let grep_query := ((pyWords prompt).getLast?).getD []
    select_reasoning_trace prompt ++ "\n\nGrep results:\n".data ++ grep_search grep_query
  else
    select_reasoning_trace prompt

/-- The `usage` object of the non-streaming `completions` response
(mock_engine.py lines 219–241). -/
def completions_usage (prompt : List Char) : Usage :=
  let prompt_tokens := estimate_tokens prompt
  let completion_tokens := estimate_tokens (completions_response_text prompt)
  ⟨prompt_tokens, completion_tokens, prompt_tokens + completion_tokens⟩

structure ChatMessage where
  role : List Char
  content : List Char

/-- The last user-role message's content (mock_engine.py lines 263–293);
no user message degrades to the empty string. -/
def extract_user_message (messages : List ChatMessage) : List Char :=
  match messages.reverse.find? (fun m => m.role == "user".data) with
  | some m => m.content
  | none => []

/-- The `response_text` computed by `chat_completions` (mock_engine.py
lines 295–300); the grep branch passes the whole user message as query. -/
def chat_response_text (user_message : List Char) : List Char :=
  if isSubstring "grep".data (lowerStr user_message)
      || isSubstring "search".data (lowerStr user_message)
      || isSubstring "find".data (lowerStr user_message) then
    select_reasoning_trace user_message ++ "\n\nGrep results:\n".data ++ grep_search user_message
  else
    select_reasoning_trace user_message

/-- The `usage` object of the non-streaming `chat_completions` response
(mock_engine.py lines 302–330): prompt tokens sum over all messages. -/
def chat_completions_usage (messages : List ChatMessage) : Usage :=
  let prompt_tokens := (messages.map (fun m => estimate_tokens m.content)).sum
  let completion_tokens :=
    estimate_tokens (chat_response_text (extract_user_message messages))
  ⟨prompt_tokens, completion_tokens, prompt_tokens + completion_tokens⟩

/-- The `usage` object of the non-streaming vllm `chat_completions`
response (mock_vllm_server.py lines 203–240): the prompt text is the
newline-join of the message contents.  `generate_response` draws random
samples, so the response text is a parameter here. -/
def vllm_chat_usage (contents : List (List Char)) (response_text : List Char) : Usage :=
  let prompt_tokens := count_tokens (joinNl contents)
  let completion_tokens := count_tokens response_text
  ⟨prompt_tokens, completion_tokens, prompt_tokens + completion_tokens⟩

/-! ## Streaming responders (mock_engine.py lines 340–383,
mock_vllm_server.py lines 251–290)

A server-sent event is either a JSON chunk — whose single choice carries an
optional `delta.content` and an optional `finish_reason` — or the literal
`data: [DONE]` line. -/

structure StreamChoice where
  delta_content : Option (List Char)
  finish_reason : Option (List Char)
deriving DecidableEq

inductive SSE
  | chunk (choice : StreamChoice)
  | doneMarker
deriving DecidableEq

/-- The event sequence emitted by `stream_response` (mock_engine.py lines
340–383): the words of the text in batches of `chunk_size = 3`, each
emitted as `' '.join(batch) + ' '`, then a chunk with empty delta and
finish_reason "stop", then `data: [DONE]`. -/
def stream_response_events (text : List Char) : List SSE :=
  ((chunkList 2 (pyWords text)).map
      (fun batch => SSE.chunk ⟨some (joinSp batch ++ [' ']), none⟩))
    ++ [SSE.chunk ⟨none, some "stop".data⟩, SSE.doneMarker]

/-- The event sequence emitted by `generate_stream` (mock_vllm_server.py
lines 251–288): one chunk per word, `word + " "`, then the final stop
chunk and `data: [DONE]`. -/
def generate_stream_events (response_text : List Char) : List SSE :=
  ((pyWords response_text).map (fun w => SSE.chunk ⟨some (w ++ [' ']), none⟩))
    ++ [SSE.chunk ⟨none, some "stop".data⟩, SSE.doneMarker]

/-- The delta-content fields of a stream, in emission order. -/
def streamDeltas (events : List SSE) : List (List Char) :=
  events.filterMap (fun e => match e with
    | .chunk c => c.delta_content
    | .doneMarker => none)

/-! ## Configuration updates by text substitution

`benchmark.py` (lines 33–52) and `benchmark_grep.py` (lines 38–54) rewrite
the rate-constant assignment lines of `mock_engine.py` in place.  A source
line is one of: the `PREFILL_TOKENS_PER_SEC = …` assignment (it contains
both the constant's name and an `=`), the `DECODE_TOKENS_PER_SEC = …`
assignment, or any other line. -/

inductive SrcLine
  | prefillAssign (value : ℤ)
  | decodeAssign (value : ℤ)
  | otherLine
deriving DecidableEq

/-- `update_mock_engine_speeds` (benchmark.py lines 33–52): rewrite both
assignment lines, unconditionally; no validation of the new values. -/
def update_mock_engine_speeds (prefill_speed decode_speed : ℤ)
    (lines : List SrcLine) : List SrcLine :=
  lines.map (fun l => match l with
    | .prefillAssign _ => .prefillAssign prefill_speed
    | .decodeAssign _ => .decodeAssign decode_speed
    | .otherLine => .otherLine)

/-- `update_mock_engine_speed` (benchmark_grep.py lines 38–54): the regex
`DECODE_TOKENS_PER_SEC = \d+` substitution rewrites only the decode line;
no validation of the new value. -/
def update_mock_engine_speed (tokens_per_sec : ℤ)
    (lines : List SrcLine) : List SrcLine :=
  lines.map (fun l => match l with
    | .decodeAssign _ => .decodeAssign tokens_per_sec
    | .prefillAssign v => .prefillAssign v
    | .otherLine => .otherLine)

/-! ## Benchmark drivers: query results and statistics -/

/-- The outcome of one `subprocess.run` invocation of the external CLI:
normal completion with an exit code, stdout and a measured wall-clock
duration; a `TimeoutExpired`, with the wall-clock duration at which the
exception was handled; or any other exception. -/
inductive Invocation
  | completed (returncode : ℤ) (stdout : List Char) (elapsed : ℚ)
  | timedOut (elapsed : ℚ)
  | raisedErr (message : List Char) (elapsed : ℚ)

namespace Benchmark

/-- The result dict built by `run_grep_query` (benchmark.py lines 54–89);
the `query` field is dropped (it is the function's own argument, echoed). -/
structure QueryResult where
  success : Bool
  time : ℚ
  error : Option (List Char)
deriving DecidableEq

/-- `run_grep_query` (benchmark.py lines 54–89): a timeout is recorded
with the fixed time `30.0` and tag "timeout"; any other exception with
time `0`. -/
def run_grep_query (inv : Invocation) : QueryResult :=
  match inv with
  | .completed rc _ elapsed => ⟨rc == 0, elapsed, none⟩
  | .timedOut _ => ⟨false, 30, some "timeout".data⟩
  | .raisedErr msg _ => ⟨false, 0, some msg⟩

structure Stats where
  avg : ℚ
  min : ℚ
  max : ℚ
  total : ℚ
  success_rate : ℚ
deriving DecidableEq

/-- `calculate_stats` (benchmark.py lines 115–134): aggregates over the
times of successful results only; an empty successful-times list yields
the all-zero record. -/
def calculate_stats (results : List QueryResult) : Stats :=
  let times := (results.filter (·.success)).map (·.time)
  match times with
  | [] => ⟨0, 0, 0, 0, 0⟩
  | t :: ts =>
    ⟨(t :: ts).sum / (t :: ts).length,
     ts.foldl Min.min t,
     ts.foldl Max.max t,
     (t :: ts).sum,
     ((t :: ts).length : ℚ) / results.length * 100⟩

end Benchmark

namespace BenchmarkGrep

/-- The ten queries of `GREP_QUERIES` (benchmark_grep.py lines 21–32). -/
def GREP_QUERIES : List (List Char) :=
  ["search for \x27function\x27 in the codebase".data,
   "find all instances of \x27import\x27".data,
   "grep for \x27export\x27 keyword".data,
   "search for \x27async\x27 functions".data,
   "find \x27class\x27 definitions".data,
   "grep for \x27interface\x27 declarations".data,
   "search for \x27const\x27 variables".data,
   "find \x27type\x27 aliases".data,
   "grep for \x27return\x27 statements".data,
   "search for \x27await\x27 keywords".data]

/-- The result dict built by `run_grep_query` (benchmark_grep.py lines
73–114); the `query` field is dropped. -/
structure QueryResult where
  success : Bool
  elapsed_time : ℚ
  output_length : ℕ
  error : Option (List Char)
deriving DecidableEq

/-- `run_grep_query` (benchmark_grep.py lines 73–114): on a timeout the
recorded `elapsed_time` is the measured `time.time() - start_time`, not
the fixed timeout duration. -/
def run_grep_query (inv : Invocation) : QueryResult :=
  match inv with
  | .completed rc out elapsed => ⟨rc == 0, elapsed, out.length, none⟩
  | .timedOut elapsed => ⟨false, elapsed, 0, some "timeout".data⟩
  | .raisedErr msg elapsed => ⟨false, elapsed, 0, some msg⟩

/-- `statistics.median` on a list of rationals. -/
def pyMedian (l : List ℚ) : ℚ :=
  let s := l.insertionSort (· ≤ ·)
  if l.length % 2 = 1 then s.getD (l.length / 2) 0
  else (s.getD (l.length / 2 - 1) 0 + s.getD (l.length / 2) 0) / 2

/-- The stats record of `run_benchmark_suite` (benchmark_grep.py lines
133–159).  `stddev_time` is omitted from the `ok` record: it is the one
irrational field (`statistics.stdev`), and no claim mentions it;
`individual_results` is the function's own argument, echoed. -/
structure SuiteOk where
  tokens_per_sec : ℤ
  total_queries : ℕ
  successful_queries : ℕ
  failed_queries : ℕ
  total_time : ℚ
  avg_time : ℚ
  median_time : ℚ
  min_time : ℚ
  max_time : ℚ
  queries_per_minute : ℚ
deriving DecidableEq

inductive SuiteStats
  | allFailed (tokens_per_sec : ℤ) (total_queries failed_queries : ℕ)
  | ok (s : SuiteOk)
deriving DecidableEq

/-- The statistics part of `run_benchmark_suite` (benchmark_grep.py lines
133–159): with no successful time, the explicit `error: All queries
failed` record; otherwise the full aggregate record.  The query-count
fields use `len(GREP_QUERIES)` as the source does. -/
def run_benchmark_suite_stats (tokens_per_sec : ℤ)
    (results : List QueryResult) : SuiteStats :=
  let times := (results.filter (·.success)).map (·.elapsed_time)
  match times with
  | [] => .allFailed tokens_per_sec GREP_QUERIES.length GREP_QUERIES.length
  | t :: ts =>
    .ok ⟨tokens_per_sec,
         GREP_QUERIES.length,
         (t :: ts).length,
         GREP_QUERIES.length - (t :: ts).length,
         (t :: ts).sum,
         (t :: ts).sum / (t :: ts).length,
         pyMedian (t :: ts),
         ts.foldl Min.min t,
         ts.foldl Max.max t,
         60 / ((t :: ts).sum / (t :: ts).length)⟩

end BenchmarkGrep

namespace BenchmarkLogs

/-- The result dict built by `run_qwen_query` (benchmark_with_logs.py
lines 87–134); the `query` field is dropped. -/
structure QueryResult where
  success : Bool
  qwen_time : ℚ
  api_time : Option ℚ
  overhead : Option ℚ
deriving DecidableEq

structure AvgTotal where
  avg : ℚ
  total : ℚ
deriving DecidableEq

structure Stats where
  qwen : AvgTotal
  api : Option AvgTotal
  overhead : Option AvgTotal
deriving DecidableEq

/-- Python truthiness of an optional float: `None` and `0.0` are falsy. -/
def pyTruthy (x : Option ℚ) : Bool :=
  match x with
  | none => false
  | some v => v != 0

/-- `calculate_stats` (benchmark_with_logs.py lines 166–194): `None` when
no successful result exists; the `api` and `overhead` sub-records only
when their (truthy-filtered) time lists are non-empty. -/
def calculate_stats (results : List QueryResult) : Option Stats :=
  let qwen_times := (results.filter (·.success)).map (·.qwen_time)
  let api_times := (results.filter (fun r => r.success && pyTruthy r.api_time)).map
    (fun r => r.api_time.getD 0)
  let overhead_times := (results.filter (fun r => r.success && pyTruthy r.overhead)).map
    (fun r => r.overhead.getD 0)
  match qwen_times with
  | [] => none
  | t :: ts =>
    some ⟨⟨(t :: ts).sum / (t :: ts).length, (t :: ts).sum⟩,
          match api_times with
          | [] => none
          | a :: bs => some ⟨(a :: bs).sum / (a :: bs).length, (a :: bs).sum⟩,
          match overhead_times with
          | [] => none
          | a :: bs => some ⟨(a :: bs).sum / (a :: bs).length, (a :: bs).sum⟩⟩

end BenchmarkLogs

/-! ## Claim-side characterizations and fixed inputs -/

/-- The grep lines `grep_search` should produce for a non-empty query: the
entry lists of the matched `keyword_map` categories, concatenated in
category declaration order, without deduplication. -/
def matchedGrepLines (query : List Char) : List (List Char) :=
  ((keyword_map.filter
      (fun ckws => ckws.2.any (fun kw => isSubstring kw (lowerStr query)))).map
    (fun ckws => (GREP_RESPONSES.lookup ckws.1).getD [])).flatten

/-- The spec's fixed statistics example: results
`[{success:true, time:1.0}, {success:true, time:3.0}, {success:false}]`
(the failed entry's time is irrelevant; `calculate_stats` never reads it). -/
def c8_results : List Benchmark.QueryResult :=
  [⟨true, 1, none⟩, ⟨true, 3, none⟩, ⟨false, 0, none⟩]

/-! ## Lemmas on word splitting and chunking -/

theorem pyWords_nil : pyWords [] = [] := by simp [pyWords]

theorem pyWords_cons_ws {c : Char} (h : c.isWhitespace = true) (cs : List Char) :
    pyWords (c :: cs) = pyWords cs := by
  rw [pyWords]
  simp [h]

theorem pyWords_cons_not_ws {c : Char} (h : c.isWhitespace = false) (cs : List Char) :
    pyWords (c :: cs) =
      (c :: cs.takeWhile (fun d => !d.isWhitespace)) ::
        pyWords (cs.dropWhile (fun d => !d.isWhitespace)) := by
  rw [pyWords]
  simp [h]

/-- Every word produced by `pyWords` is non-empty and whitespace-free. -/
theorem pyWords_sound (s : List Char) :
    ∀ w ∈ pyWords s, w ≠ [] ∧ ∀ c ∈ w, c.isWhitespace = false := by
  induction s using pyWords.induct with
  | case1 => simp [pyWords_nil]
  | case2 c cs hc ih =>
    rw [pyWords_cons_ws hc]
    exact ih
  | case3 c cs hc ih =>
    rw [pyWords_cons_not_ws (by simpa using hc)]
    intro w hw
    rcases List.mem_cons.mp hw with hw | hw
    · subst hw
      refine ⟨by simp, ?_⟩
      intro d hd
      rcases List.mem_cons.mp hd with hd | hd
      · subst hd; simpa using hc
      · simpa using List.mem_takeWhile_imp hd
    · exact ih w hw

/-- Splitting cuts cleanly at an interposed space. -/
theorem pyWords_append_space (a b : List Char) :
    pyWords (a ++ ' ' :: b) = pyWords a ++ pyWords b := by
  induction a using pyWords.induct with
  | case1 =>
    rw [List.nil_append, pyWords_nil, List.nil_append, pyWords_cons_ws (by simp)]
  | case2 c cs hc ih =>
    rw [List.cons_append, pyWords_cons_ws hc, pyWords_cons_ws hc, ih]
  | case3 c cs hc ih =>
    have hc' : c.isWhitespace = false := by simpa using hc
    rw [List.cons_append, pyWords_cons_not_ws hc', pyWords_cons_not_ws hc']
    rw [List.takeWhile_append, List.dropWhile_append]
    by_cases hfull : (cs.takeWhile (fun d => !d.isWhitespace)).length = cs.length
    · have htake : cs.takeWhile (fun d => !d.isWhitespace) = cs :=
        (List.takeWhile_prefix _).eq_of_length hfull
      have hdrop : cs.dropWhile (fun d => !d.isWhitespace) = [] := by
        have := List.takeWhile_append_dropWhile (fun d => !d.isWhitespace) cs
        rw [htake] at this
        simpa using this
      simp only [hfull, if_pos, hdrop, List.isEmpty_nil, if_true]
      rw [List.dropWhile_cons_of_neg (by simp), List.takeWhile_cons_of_neg (by simp)]
      rw [pyWords_cons_ws (by simp), htake]
      simp [pyWords_nil]
    · have hne : cs.dropWhile (fun d => !d.isWhitespace) ≠ [] := by
        intro hnil
        apply hfull
        have := List.takeWhile_append_dropWhile (fun d => !d.isWhitespace) cs
        rw [hnil, List.append_nil] at this
        rw [this]
      simp only [hfull, if_neg, Ne, not_false_iff]
      simp only [List.isEmpty_iff, hne, if_neg, not_false_iff]
      rw [ih]
      simp

/-- A single non-empty, whitespace-free word splits to itself. -/
theorem pyWords_single {w : List Char} (h1 : w ≠ [])
    (h2 : ∀ c ∈ w, c.isWhitespace = false) : pyWords w = [w] := by
  cases w with
  | nil => exact absurd rfl h1
  | cons c cs =>
    rw [pyWords_cons_not_ws (h2 c (by simp))]
    have htake : cs.takeWhile (fun d => !d.isWhitespace) = cs :=
      List.takeWhile_eq_self_iff.mpr (fun x hx => by simp [h2 x (by simp [hx])])
    have hdrop : cs.dropWhile (fun d => !d.isWhitespace) = [] :=
      List.dropWhile_eq_nil_iff.mpr (fun x hx => by simp [h2 x (by simp [hx])])
    rw [htake, hdrop, pyWords_nil]

theorem joinSp_cons2 (w x : List Char) (ws : List (List Char)) :
    joinSp (w :: x :: ws) = w ++ ' ' :: joinSp (x :: ws) := rfl

/-- Splitting a space-joined batch of good words, followed by a space and
anything, recovers the batch. -/
theorem pyWords_joinSp (g : List (List Char)) (tail : List Char)
    (h : ∀ w ∈ g, w ≠ [] ∧ ∀ c ∈ w, c.isWhitespace = false) :
    pyWords (joinSp g ++ ' ' :: tail) = g ++ pyWords tail := by
  induction g with
  | nil =>
    show pyWords (' ' :: tail) = _
    rw [pyWords_cons_ws (by simp), List.nil_append]
  | cons w ws ih =>
    cases ws with
    | nil =>
      show pyWords (w ++ ' ' :: tail) = _
      rw [pyWords_append_space, pyWords_single (h w (by simp)).1 (h w (by simp)).2]
    | cons x ws' =>
      rw [joinSp_cons2]
      have hassoc : (w ++ ' ' :: joinSp (x :: ws')) ++ ' ' :: tail
          = w ++ ' ' :: (joinSp (x :: ws') ++ ' ' :: tail) := by simp
      rw [hassoc, pyWords_append_space,
        pyWords_single (h w (by simp)).1 (h w (by simp)).2,
        ih (fun u hu => h u (by simp [hu]))]
      simp

/-- Splitting the concatenation of space-terminated batches of good words
recovers all the words. -/
theorem pyWords_flatten_deltas (gs : List (List (List Char)))
    (h : ∀ g ∈ gs, ∀ w ∈ g, w ≠ [] ∧ ∀ c ∈ w, c.isWhitespace = false) :
    pyWords ((gs.map (fun g => joinSp g ++ [' '])).flatten) = gs.flatten := by
  induction gs with
  | nil => exact pyWords_nil
  | cons g gs ih =>
    have hstep : ((g :: gs).map (fun g => joinSp g ++ [' '])).flatten
        = joinSp g ++ ' ' :: (gs.map (fun g => joinSp g ++ [' '])).flatten := by
      simp
    rw [hstep, pyWords_joinSp g _ (h g (by simp)),
      ih (fun u hu => h u (by simp [hu]))]
    simp

theorem chunkList_flatten (n : ℕ) (l : List α) : (chunkList n l).flatten = l := by
  induction l using chunkList.induct n with
  | case1 => rw [chunkList]; rfl
  | case2 a l ih =>
    rw [chunkList]
    simp only [List.flatten_cons, ih, List.take_append_drop]

theorem mem_chunkList {n : ℕ} {l g : List α} (hg : g ∈ chunkList n l) :
    ∀ a ∈ g, a ∈ l := by
  induction l using chunkList.induct n with
  | case1 => simp [chunkList] at hg
  | case2 a l ih =>
    rw [chunkList] at hg
    rcases List.mem_cons.mp hg with hg | hg
    · subst hg
      exact fun x hx => List.take_subset _ _ hx
    · exact fun x hx => List.drop_subset _ _ (ih hg x hx)

theorem filterMap_delta_chunks (f : α → List Char) (l : List α) :
    List.filterMap
      (fun e => match e with | SSE.chunk c => c.delta_content | SSE.doneMarker => none)
      (l.map (fun x => SSE.chunk ⟨some (f x), none⟩))
    = l.map f := by
  induction l <;> simp_all [List.filterMap_cons]

theorem streamDeltas_stream_response (text : List Char) :
    streamDeltas (stream_response_events text)
      = (chunkList 2 (pyWords text)).map (fun batch => joinSp batch ++ [' ']) := by
  rw [streamDeltas, stream_response_events, List.filterMap_append,
    filterMap_delta_chunks (fun batch => joinSp batch ++ [' '])]
  simp [List.filterMap_cons]

theorem streamDeltas_generate_stream (text : List Char) :
    streamDeltas (generate_stream_events text)
      = (pyWords text).map (fun w => w ++ [' ']) := by
  rw [streamDeltas, generate_stream_events, List.filterMap_append,
    filterMap_delta_chunks (fun w => w ++ [' '])]
  simp [List.filterMap_cons]

theorem flatten_map_singleton (l : List α) : (l.map (fun a => [a])).flatten = l := by
  induction l <;> simp_all

/-- The accumulation loop of `grep_search` (mock_engine.py lines 188–192)
as filter–map–flatten. -/
theorem grep_foldl_eq (q : List Char) (l : List (List Char × List (List Char)))
    (acc : List (List Char)) :
    l.foldl (fun acc ckws =>
        if ckws.2.any (fun kw => isSubstring kw q) then
          acc ++ ((GREP_RESPONSES.lookup ckws.1).getD [])
        else acc) acc
    = acc ++ ((l.filter (fun ckws => ckws.2.any (fun kw => isSubstring kw q))).map
        (fun ckws => (GREP_RESPONSES.lookup ckws.1).getD [])).flatten := by
  induction l generalizing acc with
  | nil => simp
  | cons hd tl ih =>
    simp only [List.foldl_cons, List.filter_cons]
    by_cases h : hd.2.any (fun kw => isSubstring kw q) = true
    · rw [if_pos h, if_pos h, ih, List.map_cons, List.flatten_cons, List.append_assoc]
    · rw [if_neg h, if_neg h, ih]

/-! ## The claims -/

/-- C1: for all non-negative token counts `p`, `c` and strictly positive
rate constants, `simulate_timing(p, c)` returns exactly
`base + p/prefill_rate + c/decode_rate` — with `base = 0` in the Flask
variant (`simulate_timing`, mock_engine.py) and
`base = BASE_LATENCY_MS/1000` in the async variant
(`simulate_generation_timing`, mock_vllm_server.py) — and both are
monotonically non-decreasing in `p` and in `c`. -/
theorem simulate_timing_spec (prefill_rate decode_rate : ℚ)
    (hp : 0 < prefill_rate) (hd : 0 < decode_rate)
    (p c p' c' : ℕ) (hpp : p ≤ p') (hcc : c ≤ c') :
    simulate_timing prefill_rate decode_rate p c = 0 + p / prefill_rate + c / decode_rate
    ∧ simulate_generation_timing prefill_rate decode_rate BASE_LATENCY_MS p c
        = BASE_LATENCY_MS / 1000 + p / prefill_rate + c / decode_rate
    ∧ simulate_timing prefill_rate decode_rate p c
        ≤ simulate_timing prefill_rate decode_rate p' c'
    ∧ simulate_generation_timing prefill_rate decode_rate BASE_LATENCY_MS p c
        ≤ simulate_generation_timing prefill_rate decode_rate BASE_LATENCY_MS p' c' := by
  have hpq : (p : ℚ) ≤ p' := Nat.cast_le.mpr hpp
  have hcq : (c : ℚ) ≤ c' := Nat.cast_le.mpr hcc
  refine ⟨by rw [simulate_timing]; ring, rfl, ?_, ?_⟩
  · rw [simulate_timing, simulate_timing]
    gcongr
  · rw [simulate_generation_timing, simulate_generation_timing]
    gcongr

/-- Witness for C1 at the checked-in Flask rates, `p = 3 ≤ 7`, `c = 5 ≤ 9`. -/
theorem simulate_timing_spec_witness :
    (0 : ℚ) < 1000 ∧ (0 : ℚ) < 50 ∧ (3 : ℕ) ≤ 7 ∧ (5 : ℕ) ≤ 9
    ∧ (simulate_timing 1000 50 3 5 = 0 + (3 : ℕ) / 1000 + (5 : ℕ) / 50
       ∧ simulate_generation_timing 1000 50 BASE_LATENCY_MS 3 5
           = BASE_LATENCY_MS / 1000 + (3 : ℕ) / 1000 + (5 : ℕ) / 50
       ∧ simulate_timing 1000 50 3 5 ≤ simulate_timing 1000 50 7 9
       ∧ simulate_generation_timing 1000 50 BASE_LATENCY_MS 3 5
           ≤ simulate_generation_timing 1000 50 BASE_LATENCY_MS 7 9) :=
  ⟨by norm_num, by norm_num, by norm_num, by norm_num,
   simulate_timing_spec 1000 50 (by norm_num) (by norm_num) 3 5 7 9
     (by norm_num) (by norm_num)⟩

/-- C2: for every response text, concatenating the delta contents of the
streaming chunks in emission order and whitespace-normalizing yields the
same string as the whitespace-normalized non-streaming response content —
in both the Flask (`stream_response`) and async (`generate_stream`)
variants, which stream the very text the non-streaming path returns — and
both streams end with one chunk carrying an empty delta and finish_reason
"stop", followed by the literal `data: [DONE]` line. -/
theorem stream_equals_nonstream (text : List Char) :
    (normalizeWs ((streamDeltas (stream_response_events text)).flatten) = normalizeWs text
      ∧ [SSE.chunk ⟨none, some "stop".data⟩, SSE.doneMarker] <:+ stream_response_events text)
    ∧ (normalizeWs ((streamDeltas (generate_stream_events text)).flatten) = normalizeWs text
      ∧ [SSE.chunk ⟨none, some "stop".data⟩, SSE.doneMarker] <:+ generate_stream_events text) := by
  refine ⟨⟨?_, ⟨_, rfl⟩⟩, ⟨?_, ⟨_, rfl⟩⟩⟩
  · rw [streamDeltas_stream_response, normalizeWs, normalizeWs,
      pyWords_flatten_deltas _
        (fun g hg w hw => pyWords_sound text w (mem_chunkList hg w hw)),
      chunkList_flatten]
  · rw [streamDeltas_generate_stream, normalizeWs, normalizeWs]
    have hmap : (pyWords text).map (fun w => w ++ [' '])
        = ((pyWords text).map (fun w => [w])).map (fun g => joinSp g ++ [' ']) := by
      rw [List.map_map]; rfl
    rw [hmap, pyWords_flatten_deltas _ ?h, flatten_map_singleton]
    intro g hg w hw
    rcases List.mem_map.mp hg with ⟨u, hu, rfl⟩
    rcases List.mem_singleton.mp hw with rfl
    exact pyWords_sound text w hu

/-- C3 counterexample: writing a zero decode rate is not refused — both
update functions return normally and the resulting configuration carries
the zero rate. -/
theorem update_zero_rate_counterexample :
    update_mock_engine_speeds 500 0 [SrcLine.prefillAssign 1000, SrcLine.decodeAssign 50]
      = [SrcLine.prefillAssign 500, SrcLine.decodeAssign 0]
    ∧ SrcLine.decodeAssign 0
        ∈ update_mock_engine_speeds 500 0 [SrcLine.prefillAssign 1000, SrcLine.decodeAssign 50]
    ∧ update_mock_engine_speed 0 [SrcLine.decodeAssign 50] = [SrcLine.decodeAssign 0] := by
  refine ⟨rfl, ?_, rfl⟩
  simp [update_mock_engine_speeds]

/-- C3 (amended): configuration updates perform no validation — every
requested rate, zero included, is written into the assignment lines
unconditionally, so nothing prevents `simulate_timing` from dividing by
zero at request time. -/
theorem update_rates_unvalidated (p d t v₁ v₂ : ℤ) (lines : List SrcLine)
    (h1 : SrcLine.decodeAssign v₁ ∈ lines) (h2 : SrcLine.prefillAssign v₂ ∈ lines) :
    SrcLine.decodeAssign d ∈ update_mock_engine_speeds p d lines
    ∧ SrcLine.prefillAssign p ∈ update_mock_engine_speeds p d lines
    ∧ SrcLine.decodeAssign t ∈ update_mock_engine_speed t lines :=
  ⟨List.mem_map_of_mem _ h1, List.mem_map_of_mem _ h2, List.mem_map_of_mem _ h1⟩

/-- Witness for the amended C3 at a two-line file and a zero rate. -/
theorem update_rates_unvalidated_witness :
    SrcLine.decodeAssign 50 ∈ [SrcLine.prefillAssign 1000, SrcLine.decodeAssign 50]
    ∧ SrcLine.prefillAssign 1000 ∈ [SrcLine.prefillAssign 1000, SrcLine.decodeAssign 50]
    ∧ (SrcLine.decodeAssign 0
        ∈ update_mock_engine_speeds 500 0 [SrcLine.prefillAssign 1000, SrcLine.decodeAssign 50]
      ∧ SrcLine.prefillAssign 500
        ∈ update_mock_engine_speeds 500 0 [SrcLine.prefillAssign 1000, SrcLine.decodeAssign 50]
      ∧ SrcLine.decodeAssign 0
        ∈ update_mock_engine_speed 0 [SrcLine.prefillAssign 1000, SrcLine.decodeAssign 50]) :=
  ⟨by decide, by decide,
   update_rates_unvalidated 500 0 0 50 1000 _ (by decide) (by decide)⟩

/-- C4 counterexample: in `benchmark_grep.py`, a query that times out
after a measured 31 seconds is recorded with elapsed time 31, not with
the fixed timeout duration 30.0. -/
theorem timeout_fixed_time_counterexample :
    BenchmarkGrep.run_grep_query (Invocation.timedOut 31)
      = ⟨false, 31, 0, some "timeout".data⟩
    ∧ (BenchmarkGrep.run_grep_query (Invocation.timedOut 31)).elapsed_time ≠ 30 := by
  refine ⟨rfl, ?_⟩
  show (31 : ℚ) ≠ 30
  norm_num

/-- C4 (amended): a timed-out query is recorded with success = false and
error tag "timeout"; `benchmark.py` records the fixed duration 30.0 while
`benchmark_grep.py` records the measured elapsed time.  In both variants
such a result is counted in the total query count (the list grows by one)
but contributes nothing to the successful-times list feeding the timing
aggregates (avg, min, max, total). -/
theorem timeout_recording (e : ℚ) (r1 : List Benchmark.QueryResult)
    (r2 : List BenchmarkGrep.QueryResult) :
    Benchmark.run_grep_query (Invocation.timedOut e) = ⟨false, 30, some "timeout".data⟩
    ∧ BenchmarkGrep.run_grep_query (Invocation.timedOut e)
        = ⟨false, e, 0, some "timeout".data⟩
    ∧ ((r1 ++ [Benchmark.run_grep_query (Invocation.timedOut e)]).filter
          (·.success)).map (·.time)
        = (r1.filter (·.success)).map (·.time)
    ∧ (r1 ++ [Benchmark.run_grep_query (Invocation.timedOut e)]).length = r1.length + 1
    ∧ ((r2 ++ [BenchmarkGrep.run_grep_query (Invocation.timedOut e)]).filter
          (·.success)).map (·.elapsed_time)
        = (r2.filter (·.success)).map (·.elapsed_time)
    ∧ (r2 ++ [BenchmarkGrep.run_grep_query (Invocation.timedOut e)]).length
        = r2.length + 1 := by
  refine ⟨rfl, rfl, ?_, by simp, ?_, by simp⟩
  · simp [Benchmark.run_grep_query, List.filter_append]
  · simp [BenchmarkGrep.run_grep_query, List.filter_append]

/-- C5: a result list with no successful entry yields a placeholder
rather than an error in all three variants: the all-zero record in
`benchmark.py`, the explicit all-failed marker in `benchmark_grep.py`
(with its fixed query counts `len(GREP_QUERIES) = 10`), and Python's
`None` in `benchmark_with_logs.py`. -/
theorem all_failed_placeholder_stats (t : ℤ)
    (r1 : List Benchmark.QueryResult) (r2 : List BenchmarkGrep.QueryResult)
    (r3 : List BenchmarkLogs.QueryResult)
    (h1 : ∀ r ∈ r1, r.success = false) (h2 : ∀ r ∈ r2, r.success = false)
    (h3 : ∀ r ∈ r3, r.success = false) :
    Benchmark.calculate_stats r1 = ⟨0, 0, 0, 0, 0⟩
    ∧ BenchmarkGrep.run_benchmark_suite_stats t r2 = .allFailed t 10 10
    ∧ BenchmarkLogs.calculate_stats r3 = none := by
  have e1 : r1.filter (·.success) = [] :=
    List.filter_eq_nil_iff.mpr (by simpa using h1)
  have e2 : r2.filter (·.success) = [] :=
    List.filter_eq_nil_iff.mpr (by simpa using h2)
  have e3 : r3.filter (·.success) = [] :=
    List.filter_eq_nil_iff.mpr (by simpa using h3)
  refine ⟨?_, ?_, ?_⟩
  · rw [Benchmark.calculate_stats, e1, List.map_nil]
  · rw [BenchmarkGrep.run_benchmark_suite_stats, e2, List.map_nil]
    simp [BenchmarkGrep.GREP_QUERIES]
  · rw [BenchmarkLogs.calculate_stats, e3, List.map_nil]

/-- Witness for C5 at singleton all-failed result lists. -/
theorem all_failed_placeholder_stats_witness :
    Benchmark.calculate_stats [⟨false, 30, some "timeout".data⟩] = ⟨0, 0, 0, 0, 0⟩
    ∧ BenchmarkGrep.run_benchmark_suite_stats 50 [⟨false, 31, 0, some "timeout".data⟩]
        = .allFailed 50 10 10
    ∧ BenchmarkLogs.calculate_stats [⟨false, 30, none, none⟩] = none :=
  all_failed_placeholder_stats 50 _ _ _ (by simp) (by simp) (by simp)

/-- C6: a non-empty prompt whose lower-cased text contains "grep",
"search" or "find" (the grep trace's pattern, which is tested first, so no
other pattern has higher priority) makes `select_reasoning_trace` return
the grep trace's response body verbatim; an empty (or absent — Python
falsy) prompt yields the default trace's response body. -/
theorem select_reasoning_trace_spec (prompt : List Char)
    (hne : prompt ≠ [])
    (hkw : matchesAny grepTracePats (lowerStr prompt) = true) :
    select_reasoning_trace prompt = grepTraceResponse
    ∧ select_reasoning_trace [] = defaultTraceResponse := by
  refine ⟨?_, rfl⟩
  rw [select_reasoning_trace]
  rw [if_neg (by simpa [List.isEmpty_iff] using hne)]
  simp only [hkw, if_true]

/-- Witness for C6 at a concrete grep-keyword prompt. -/
theorem select_reasoning_trace_spec_witness :
    ("Can you grep for foo".data ≠ ([] : List Char))
    ∧ matchesAny grepTracePats (lowerStr "Can you grep for foo".data) = true
    ∧ (select_reasoning_trace "Can you grep for foo".data = grepTraceResponse
       ∧ select_reasoning_trace [] = defaultTraceResponse) :=
  ⟨by decide, by decide, select_reasoning_trace_spec "Can you grep for foo".data
    (by decide) (by decide)⟩

/-- C7: for every string `s`, the token estimators of both servers return
`floor(len(s)/4)`; in particular `estimate_tokens("") = 0`. -/
theorem estimate_tokens_spec (s : List Char) :
    estimate_tokens s = s.length / 4
    ∧ count_tokens s = s.length / 4
    ∧ estimate_tokens [] = 0 := by
  refine ⟨?_, rfl, rfl⟩
  rw [estimate_tokens]
  by_cases h : s.isEmpty
  · rw [if_pos h, List.isEmpty_iff.mp h]
    rfl
  · rw [if_neg h]

/-- C8 counterexample: on the spec's fixed input the computed
`success_rate` is `200/3 = 66.666…`, not `66.7`. -/
theorem calculate_stats_success_rate_counterexample :
    (Benchmark.calculate_stats c8_results).success_rate ≠ 667 / 10 := by
  simp only [Benchmark.calculate_stats, c8_results, List.filter, List.map]
  norm_num

/-- C8 (amended): on input
`[{success:true, time:1.0}, {success:true, time:3.0}, {success:false}]`,
`calculate_stats` reports avg = 2.0, min = 1.0, max = 3.0, total = 4.0 and
success_rate = 200/3 % (two successes out of three, as a percentage),
which the reporter's one-decimal formatting displays as 66.7. -/
theorem calculate_stats_c8 :
    Benchmark.calculate_stats c8_results = ⟨2, 1, 3, 4, 200 / 3⟩
    ∧ round ((Benchmark.calculate_stats c8_results).success_rate * 10) = (667 : ℤ) := by
  constructor
  · simp only [Benchmark.calculate_stats, c8_results, List.filter, List.map]
    simp only [Benchmark.Stats.mk.injEq]
    norm_num [List.foldl, min_def, max_def]
  · simp only [Benchmark.calculate_stats, c8_results, List.filter, List.map]
    norm_num [round_eq]

/-- C9: in every successful non-streaming response of the Flask
completions and chat-completions endpoints and of the async
chat-completions endpoint, the usage object satisfies
`total_tokens = prompt_tokens + completion_tokens`, with
`completion_tokens` the token estimate of the returned response text. -/
theorem usage_total_tokens_invariant (prompt : List Char) (messages : List ChatMessage)
    (contents : List (List Char)) (response_text : List Char) :
    ((completions_usage prompt).total_tokens
        = (completions_usage prompt).prompt_tokens
            + (completions_usage prompt).completion_tokens
      ∧ (completions_usage prompt).completion_tokens
          = estimate_tokens (completions_response_text prompt))
    ∧ ((chat_completions_usage messages).total_tokens
        = (chat_completions_usage messages).prompt_tokens
            + (chat_completions_usage messages).completion_tokens
      ∧ (chat_completions_usage messages).completion_tokens
          = estimate_tokens (chat_response_text (extract_user_message messages)))
    ∧ ((vllm_chat_usage contents response_text).total_tokens
        = (vllm_chat_usage contents response_text).prompt_tokens
            + (vllm_chat_usage contents response_text).completion_tokens
      ∧ (vllm_chat_usage contents response_text).completion_tokens
          = count_tokens response_text) :=
  ⟨⟨rfl, rfl⟩, ⟨rfl, rfl⟩, ⟨rfl, rfl⟩⟩

/-- C10: `grep_search` returns "No query provided" exactly on the empty
(falsy) query; on a non-empty query it returns the newline-join of the
matched categories' fixed entry lists in category declaration order
without deduplication, or the distinct sentinel "No matches found" when
no category matches. -/
theorem grep_search_spec (query : List Char) :
    grep_search query =
      (if query.isEmpty then "No query provided".data
       else if (matchedGrepLines query).isEmpty then "No matches found".data
       else joinNl (matchedGrepLines query))
    ∧ "No query provided".data ≠ "No matches found".data := by
  refine ⟨?_, by decide⟩
  by_cases hq : query.isEmpty
  · rw [grep_search, if_pos hq, if_pos hq]
  · rw [grep_search, if_neg hq, if_neg hq]
    have hfold := grep_foldl_eq (lowerStr query) keyword_map []
    rw [List.nil_append] at hfold
    simp only [hfold]
    by_cases hm : (matchedGrepLines query).isEmpty
    · rw [if_pos (by simpa [matchedGrepLines] using hm), if_pos hm]
      rfl
    · rw [if_neg (by simpa [matchedGrepLines] using hm), if_neg hm]
      rfl

end MockEngine
